import Mathlib

/-!
Verification of the compileSense simulated code-execution engine.

The definitions below are a shallow embedding of the engine found in the
repository's code-service module (the final revision, containing
`executeCode`, `detectSyntaxErrors`, `simulateExecution`, `analyzeComplexity`,
`getAIInsights` and their helpers), together with the two earlier revisions of
`analyzeComplexity` / `getAIInsights` where a claim refers to them.

Modelling conventions:
* JavaScript strings are Lean `String`s; `s.includes(t)` is `incl s t`,
  `s.trim()` is `jsTrim s`, `s.toLowerCase()` is `lowerStr s`.
* JavaScript numbers are modelled as exact integers (`Int`/`Nat`) wherever
  the source only compares, counts or parses them; the one place the source
  accumulates — the addition inside `calculateFibonacci` — is modelled as
  IEEE-754 binary64 addition of integer-valued doubles: the exact integer sum
  rounded to nearest, ties to even, by `fl` (exact below 2^53).
* The regexes used by the engine are compiled by hand into explicit scanning
  functions over `List Char`; each scanner documents the regex it implements.
  Greedy/lazy quantifier semantics collapse to the stated scans because in
  every pattern the character class of a quantifier is disjoint from what can
  follow it (so backtracking can never produce a different outcome).
* `executeCode` races its work against a timer; the model takes a `timedOut`
  flag selecting which side of `Promise.race` resolves first, and an
  `elapsed` value standing for `Date.now() - startTime`.
* The async wrappers and logging are dropped; all functions are pure, which is
  faithful because the engine reads no state other than its arguments (the
  only impurities in the source are `console.log` and the simulated delays).
-/

namespace CompileSense

/-! ## JavaScript string primitives -/

/-- Character class of JavaScript `\s` (ASCII part, which is all the engine
ever meets): space, tab, newline, carriage return, vertical tab, form feed. -/
def jsWs (c : Char) : Bool :=
  c = ' ' || c = '\t' || c = '\n' || c = '\r' || c = '\x0b' || c = '\x0c'

/-- JavaScript `String.prototype.trim`. -/
def jsTrim (s : String) : String :=
  String.mk (((s.data.dropWhile jsWs).reverse.dropWhile jsWs).reverse)

/-- Contiguous-sublist test used to model `String.prototype.includes`. -/
def containsSub : List Char → List Char → Bool
  | l@(_ :: tl), sub => sub.isPrefixOf l || containsSub tl sub
  | [], sub => sub.isEmpty

/-- JavaScript `s.includes(sub)`. -/
def incl (s sub : String) : Bool :=
  containsSub s.data sub.data

/-- JavaScript `s.includes(sub, from)` with a non-negative start position. -/
def inclFrom (s sub : String) (i : Nat) : Bool :=
  containsSub (s.data.drop i) sub.data

/-- Position of the first occurrence of `sub`, scanning left to right. -/
def idxOfAux (sub : List Char) : List Char → Nat → Option Nat
  | l@(_ :: tl), i => if sub.isPrefixOf l then some i else idxOfAux sub tl (i + 1)
  | [], i => if sub.isEmpty then some i else none

/-- JavaScript `s.indexOf(sub)`: first index or `-1`. -/
def idxOf (s sub : String) : Int :=
  match idxOfAux sub.data s.data 0 with
  | some i => (i : Int)
  | none => -1

/-- Number of occurrences of the character `c`, modelling `(s.match(/c/g) || []).length`
for a single-character pattern. -/
def countChar (s : String) (c : Char) : Nat :=
  s.data.count c

/-- JavaScript `s.toLowerCase()` (ASCII part). -/
def lowerStr (s : String) : String :=
  String.mk (s.data.map Char.toLower)

/-- Consume a maximal run of JavaScript whitespace (`\s*`). -/
def skipWs : List Char → List Char
  | [] => []
  | c :: cs => if jsWs c then skipWs cs else c :: cs

/-- Character class of JavaScript `\w`: letters, digits, underscore. -/
def isWordChar (c : Char) : Bool :=
  c.isAlphanum || c = '_'

/-- Case-insensitive prefix test (regex `i` flag). -/
def ciPrefix (kw l : List Char) : Bool :=
  (kw.map Char.toLower).isPrefixOf (l.map Char.toLower)

/-! ## Regex scanners shared by several detectors -/

/-- Anchored match of the keyword followed by `\s*\(`; on success returns the
input after the `(`. -/
def matchKwParen (kw : List Char) (l : List Char) : Option (List Char) :=
  if kw.isPrefixOf l then
    match skipWs (l.drop kw.length) with
    | '(' :: rest => some rest
    | _ => none
  else none

/-- Fuel-driven count of the non-overlapping matches of `kw\s*\(`, modelling
`(code.match(/kw\s*\(/g) || []).length`.  The fuel is the input length, which
bounds the number of scan steps because every step consumes at least one
character. -/
def countKwParenAux (kw : List Char) : Nat → List Char → Nat
  | 0, _ => 0
  | _ + 1, [] => 0
  | fuel + 1, l@(_ :: tl) =>
    match matchKwParen kw l with
    | some rest => countKwParenAux kw fuel rest + 1
    | none => countKwParenAux kw fuel tl

/-- Count of `/kw\s*\(/g` matches in `s`. -/
def countKwParen (kw s : String) : Nat :=
  countKwParenAux kw.data s.data.length s.data

/-- Anchored match of `/while\s*\(\s*true\s*\)/i`. -/
def whileTrueParenAt (l : List Char) : Bool :=
  if ciPrefix "while".data l then
    match skipWs (l.drop 5) with
    | '(' :: rest =>
      let rest := skipWs rest
      if ciPrefix "true".data rest then
        match skipWs (rest.drop 4) with
        | ')' :: _ => true
        | _ => false
      else false
    | _ => false
  else false

/-- Search for `/while\s*\(\s*true\s*\)/i` anywhere in the input. -/
def testWhileTrueParenAux : List Char → Bool
  | [] => false
  | l@(_ :: tl) => whileTrueParenAt l || testWhileTrueParenAux tl

/-- JavaScript `/while\s*\(\s*true\s*\)/i.test(s)`. -/
def testWhileTrueParen (s : String) : Bool :=
  testWhileTrueParenAux s.data

/-- Anchored match of `/while\s+True/i`: the keyword, at least one whitespace
character, then `true` case-insensitively. -/
def whileTrueAt (l : List Char) : Bool :=
  if ciPrefix "while".data l then
    match l.drop 5 with
    | c :: cs => jsWs c && ciPrefix "true".data (skipWs cs)
    | [] => false
  else false

/-- Search for `/while\s+True/i` anywhere in the input. -/
def testWhileTrueAux : List Char → Bool
  | [] => false
  | l@(_ :: tl) => whileTrueAt l || testWhileTrueAux tl

/-- JavaScript `/while\s+True/i.test(s)`. -/
def testWhileTrue (s : String) : Bool :=
  testWhileTrueAux s.data

/-- Decimal value of a digit string, modelling `parseInt(digits, 10)`. -/
def digitsToNat (ds : List Char) : Nat :=
  ds.foldl (fun n c => n * 10 + (c.toNat - '0'.toNat)) 0

/-- Anchored match of `/fib\w*\s*\(\s*(\d+)\s*\)/` (case-insensitive when `ci`
is set); returns the parsed integer capture. -/
def fibCallAt (ci : Bool) (l : List Char) : Option Nat :=
  let pre := if ci then ciPrefix "fib".data l else "fib".data.isPrefixOf l
  if pre then
    let rest := (l.drop 3).dropWhile isWordChar
    match skipWs rest with
    | '(' :: rest =>
      let rest := skipWs rest
      let digits := rest.takeWhile Char.isDigit
      if digits.isEmpty then none
      else
        match skipWs (rest.drop digits.length) with
        | ')' :: _ => some (digitsToNat digits)
        | _ => none
    | _ => none
  else none

/-- Leftmost match of the previous pattern in the input. -/
def extractFibArgAux (ci : Bool) : List Char → Option Nat
  | [] => none
  | l@(_ :: tl) =>
    match fibCallAt ci l with
    | some n => some n
    | none => extractFibArgAux ci tl

/-- Capture group of `s.match(/fib\w*\s*\(\s*(\d+)\s*\)/i)` (or the flag-free
variant used on print contents), fed through `parseInt`. -/
def extractFibArg (ci : Bool) (s : String) : Option Nat :=
  extractFibArgAux ci s.data

/-! ## Data model -/

/-- Language tags.  The UI type `ProgrammingLanguage` is the closed set
`javascript | python | java | cpp`; the engine additionally dispatches on a
plain-C tag, so the model carries all five. -/
inductive Lang where
  | javascript
  | python
  | java
  | cpp
  | c
deriving DecidableEq

/-- Status field of `ExecutionResult` in the final engine revision. -/
inductive Status where
  | success
  | error
  | running
  | timeout
deriving DecidableEq

/-- ExecutionResult record returned by `executeCode`. -/
structure ExecutionResult where
  status : Status
  output : String
  executionTime : Option Nat
deriving DecidableEq

/-- Nested `timeComplexity` record of `ComplexityData`. -/
structure TimeComplexity where
  best : String
  average : String
  worst : String
deriving DecidableEq

/-- ComplexityData record returned by `analyzeComplexity`. -/
structure ComplexityData where
  timeComplexity : TimeComplexity
  spaceComplexity : String
  analysis : String
deriving DecidableEq

/-- Kind tag of an `Insight`. -/
inductive InsightType where
  | suggestion
  | optimization
  | warning
deriving DecidableEq

/-- Insight record of the final engine revision; the optional fields model the
nullable/omitted TypeScript fields. -/
structure Insight where
  type : InsightType
  title : String
  description : String
  code : Option String
  rationale : Option String
  impact : Option String
deriving DecidableEq

/-- Maximum execution time before timeout (ms). -/
def EXECUTION_TIMEOUT : Nat := 5000

/-! ## Fibonacci helper -/

/-- Binary length of a natural number (fuel-driven so that kernel reduction
evaluates it; the fuel `n` bounds the halving steps). -/
def bitLenAux : Nat → Nat → Nat
  | 0, _ => 0
  | fuel + 1, n => if n = 0 then 0 else bitLenAux fuel (n / 2) + 1

/-- Number of binary digits of `n` (0 for 0). -/
def bitLen (n : Nat) : Nat :=
  bitLenAux n n

/-- IEEE-754 binary64 rounding of a non-negative exact integer sum: values
below `2^53` are representable and kept exact; larger values keep their top
53 bits, the `bitLen s - 53` trailing bits rounded off to nearest with ties
to even.  This is the value a JavaScript `a + b` of integer-valued doubles
stores. -/
def fl (s : Nat) : Nat :=
  if s < 2 ^ 53 then s
  else
    let e := bitLen s - 53
    let q := s / 2 ^ e
    let r := s % 2 ^ e
    if 2 * r > 2 ^ e ∨ (2 * r = 2 ^ e ∧ q % 2 = 1) then (q + 1) * 2 ^ e else q * 2 ^ e

/-- One step per loop iteration of `calculateFibonacci`: `a, b := b, a + b`,
the addition performed in double precision. -/
def fibLoop : Nat → Nat × Nat → Nat × Nat
  | 0, p => p
  | k + 1, (a, b) => fibLoop k (b, fl (a + b))

/-- Iterative Fibonacci helper `calculateFibonacci`: returns 0 for `n <= 0`,
1 for `n = 1`, and otherwise runs `a, b = 0, 1` through the loop
`for (i = 2; i <= n; i++)`, i.e. `n - 1` iterations of double-precision
additions (the loop values are non-negative integer-valued doubles). -/
def calculateFibonacci (n : Int) : Int :=
  if n ≤ 0 then 0
  else if n = 1 then 1
  else ((fibLoop (n - 1).toNat (0, 1)).2 : Int)

/-- Fibonacci simulation `simulateFibonacci`: extract the argument of the
first `/fib\w*\s*\(\s*(\d+)\s*\)/i` match, defaulting to 10; emit the bare
number when the language's print idiom is present, a labelled line
otherwise. -/
def simulateFibonacci (code : String) (language : Lang) : String :=
  let n : Nat :=
    match extractFibArg true code with
    | some m => m
    | none => 10
  let result : Int := calculateFibonacci (n : Int)
  if language = Lang.python ∧ incl code "print" then toString result
  else if language = Lang.java ∧ incl code "System.out.print" then toString result
  else if language = Lang.cpp ∧ incl code "cout" then toString result
  else if language = Lang.c ∧ incl code "printf" then toString result
  else "Input: n = " ++ toString n ++ "\nFibonacci(" ++ toString n ++ ") = " ++ toString result

/-! ## Syntax validation -/

/-- Shallow syntax validator `detectSyntaxErrors`: infinite-loop heuristic
first, then per-language structural checks; first match wins. -/
def detectSyntaxErrors (code : String) (language : Lang) : Option String :=
  if (language = Lang.python ∧ testWhileTrue code ∧ ¬ incl code "break")
      ∨ ((language = Lang.java ∨ language = Lang.cpp ∨ language = Lang.c)
          ∧ testWhileTrueParen code ∧ ¬ incl code "break") then
    some "Potential infinite loop detected: while loop with no break condition"
  else if language = Lang.python then
    if incl code "print(" ∧ ¬ incl code ")" then
      some "SyntaxError: unexpected EOF while parsing"
    else if (incl code "def " ∨ incl code "if " ∨ incl code "for ") ∧ ¬ incl code ":" then
      some "SyntaxError: expected \x22:\x22"
    else if incl code "input(" ∧ ¬ incl code ")" then
      some "SyntaxError: input statement is missing closing parenthesis"
    else none
  else if language = Lang.java then
    if countChar code '\x7b' ≠ countChar code '\x7d' then
      some "error: mismatched curly braces"
    else if ¬ incl code "class" then
      some "error: class declaration missing"
    else if incl code "public static void main" ∧ ¬ incl code "\x7b" then
      some "error: main method body missing"
    else none
  else if language = Lang.cpp ∨ language = Lang.c then
    if countChar code '\x7b' ≠ countChar code '\x7d' then
      some "error: mismatched curly braces"
    else
      let hasPrintf := incl code "printf"
      let hasCout := incl code "cout"
      if language = Lang.cpp ∧ hasCout ∧ ¬ incl code "iostream" then
        some "error: iostream header missing for cout"
      else if language = Lang.c ∧ hasPrintf ∧ ¬ incl code "stdio.h" then
        some "error: stdio.h header missing for printf"
      else if ¬ incl code "main" then
        some "error: main function missing"
      else none
  else none

/-! ## Pattern detectors of the execution path -/

/-- Detector `isFibonacci` of the execution path (same body as the
`hasFibonacci` used by the complexity path). -/
def isFibonacci (code : String) (_language : Lang) : Bool :=
  (incl (lowerStr code) "fibonacci" || incl (lowerStr code) "fib")
    && ((incl code "n-1" || incl code "n - 1")
          && (incl code "n-2" || incl code "n - 2")
        || (incl code "a + b" || incl code "a+b"))

/-- Detector `isBubbleSort`: at least two `for (` openers plus a swap idiom. -/
def isBubbleSort (code : String) (_language : Lang) : Bool :=
  let hasNestedLoops := decide (2 ≤ countKwParen "for" code)
  let hasSwap := incl code "swap" || (incl code "temp" && incl code ">")
  hasNestedLoops && hasSwap

/-- Output synthesis `simulateBubbleSort`; the source initialises the result
to the empty string and only assigns it for the four handled languages, so a
`javascript` tag falls through with an empty output. -/
def simulateBubbleSort (language : Lang) : String :=
  if language = Lang.java then
    "Original array: [5, 1, 4, 2, 8]\nSorted array: [1, 2, 4, 5, 8]"
  else if language = Lang.python then
    "Original array: [5, 1, 4, 2, 8]\nSorted array: [1, 2, 4, 5, 8]"
  else if language = Lang.cpp ∨ language = Lang.c then
    "Original array: 5 1 4 2 8\nSorted array: 1 2 4 5 8"
  else ""

/-- Detector `isSelectionSort`. -/
def isSelectionSort (code : String) (_language : Lang) : Bool :=
  let hasNestedLoops := decide (2 ≤ countKwParen "for" code)
  let hasMin := incl code "min" || incl code "minimum"
  let hasSwap := incl code "swap" || (incl code "temp" && incl code "=")
  hasNestedLoops && (hasMin || hasSwap)

/-- Output synthesis `simulateSelectionSort` (this one has a non-empty
fallback line). -/
def simulateSelectionSort (language : Lang) : String :=
  if language = Lang.java then
    "Original array: [5, 1, 4, 2, 8]\nSorted array: [1, 2, 4, 5, 8]"
  else if language = Lang.python then
    "Original array: [5, 1, 4, 2, 8]\nSorted array: [1, 2, 4, 5, 8]"
  else if language = Lang.cpp ∨ language = Lang.c then
    "Original array: 5 1 4 2 8\nSorted array: 1 2 4 5 8"
  else "Sorted array: 1 2 4 5 8"

/-- Detector `isHelloWorld`. -/
def isHelloWorld (code : String) (language : Lang) : Bool :=
  if language = Lang.python then
    incl code "print" && (incl code "\x22Hello" || incl code "\x27Hello")
  else if language = Lang.java then
    incl code "System.out.print" && (incl code "\x22Hello" || incl code "\x27Hello")
  else if language = Lang.cpp then
    incl code "cout" && (incl code "\x22Hello" || incl code "\x27Hello")
  else if language = Lang.c then
    incl code "printf" && (incl code "\x22Hello" || incl code "\x27Hello")
  else false

/-- Detector `hasArrayOutput`. -/
def hasArrayOutput (code : String) (_language : Lang) : Bool :=
  incl code "array" || incl code "[]" || incl code "list"
    || (incl code "for" && incl code "print")
    || (incl code "for" && incl code "cout")
    || (incl code "for" && incl code "printf")
    || (incl code "for" && incl code "System.out")

/-- Output synthesis `simulateArrayOutput`; the fallback interpolates the
sample array `[1, 2, 3, 4, 5]` joined by spaces. -/
def simulateArrayOutput (language : Lang) : String :=
  if language = Lang.python then "Array/List elements: [1, 2, 3, 4, 5]"
  else if language = Lang.java then "Array elements: [1, 2, 3, 4, 5]"
  else if language = Lang.cpp ∨ language = Lang.c then "Array elements: 1 2 3 4 5"
  else "Array elements: 1 2 3 4 5"

/-- Detector `hasForLoop`. -/
def hasForLoop (code : String) : Bool :=
  incl code "for " || incl code "for("

/-- Detector `hasRecursion` of the execution path. -/
def hasRecursion (code : String) : Bool :=
  incl code "return" && ((incl code "(" && incl code ")") || incl code "call")

/-- Fallback success messages `getDefaultOutput`. -/
def getDefaultOutput (language : Lang) : String :=
  if language = Lang.python then "Program executed successfully.\nOutput: 42"
  else if language = Lang.java then "Program compiled and ran successfully.\nOutput: 42"
  else if language = Lang.cpp then "Program executed successfully.\nOutput: 42"
  else if language = Lang.c then "Program executed successfully.\nOutput: 42"
  else "Program executed successfully.\nOutput: 42"

/-- Detector `isFactorial`. -/
def isFactorial (code : String) (_language : Lang) : Bool :=
  (incl code "factorial" || incl code "Factorial")
    && (incl code "n *" || incl code "n*" || incl code "* n")

/-- Output synthesis `simulateFactorial`; every branch interpolates the fixed
sample `n = 5`, `5! = 120`, so all four branches and the fallback agree. -/
def simulateFactorial (language : Lang) : String :=
  if language = Lang.java then "Input: n = 5\nFactorial(5) = 120"
  else if language = Lang.python then "Input: n = 5\nFactorial(5) = 120"
  else if language = Lang.cpp ∨ language = Lang.c then "Input: n = 5\nFactorial(5) = 120"
  else "Input: n = 5\nFactorial(5) = 120"

/-- Detector `hasInputStatements` for blocking input idioms. -/
def hasInputStatements (code : String) (language : Lang) : Bool :=
  if language = Lang.python then incl code "input("
  else if language = Lang.java then incl code "Scanner" && incl code ".next"
  else if language = Lang.cpp then incl code "cin >>"
  else if language = Lang.c then incl code "scanf"
  else false

/-- Output synthesis `simulateInputExecution`; the source initialises the
output to the empty string, so an unhandled tag returns it unchanged (the
caller only reaches this under `hasInputStatements`). -/
def simulateInputExecution (code : String) (language : Lang) : String :=
  if language = Lang.python then
    if incl code "input(" ∧ incl code "print(" then
      if incl code "+" ∨ incl code "-" ∨ incl code "*" ∨ incl code "/" then
        "Simulated input: 42\nOutput: 42\n" ++ "Calculated result: 84"
      else "Simulated input: 42\nOutput: 42\n"
    else "Simulated input: 42"
  else if language = Lang.java then
    if incl code "Scanner" ∧ incl code "System.out.print" then
      if incl code "+" ∨ incl code "-" ∨ incl code "*" ∨ incl code "/" then
        "Simulated input: 42\nOutput: 42\n" ++ "Calculated result: 84"
      else "Simulated input: 42\nOutput: 42\n"
    else "Simulated input: 42"
  else if language = Lang.cpp then
    if incl code "cin >>" ∧ incl code "cout <<" then
      if incl code "+" ∨ incl code "-" ∨ incl code "*" ∨ incl code "/" then
        "Simulated input: 42\nOutput: 42\n" ++ "Calculated result: 84"
      else "Simulated input: 42\nOutput: 42\n"
    else "Simulated input: 42"
  else if language = Lang.c then
    if incl code "scanf" ∧ incl code "printf" then
      if incl code "+" ∨ incl code "-" ∨ incl code "*" ∨ incl code "/" then
        "Simulated input: 42\nOutput: 42\n" ++ "Calculated result: 84"
      else "Simulated input: 42\nOutput: 42\n"
    else "Simulated input: 42"
  else ""

/-! ## Print-statement extraction

The four language branches of `extractPrintStatements` each run `exec` loops
of `g`-flagged regexes, appending one piece of output per match; the loops
below scan left to right and resume after each match (the `lastIndex`
semantics of `exec`).  Every scanner takes the input length as fuel: each step
consumes at least one character, so the fuel never runs out before the scan
finishes. -/

/-- Anchored match of `/print\s*\(\s*([^()]*?)\s*\)/`: the span between the
parentheses may not contain parentheses, and the `\s*` boundaries of the lazy
capture shed the surrounding whitespace, so the capture equals the trim of the
span; the `.trim()` applied by the source to `match[1]` is folded in here.
Returns the trimmed capture and the input after the closing parenthesis. -/
def pyPrintAt (l : List Char) : Option (String × List Char) :=
  if "print".data.isPrefixOf l then
    match skipWs (l.drop 5) with
    | '(' :: rest =>
      let inner := rest.takeWhile (fun c => !(c == '(' || c == ')'))
      match rest.drop inner.length with
      | ')' :: rest2 => some (jsTrim (String.mk inner), rest2)
      | _ => none
    | _ => none
  else none

/-- Loop body of the python branch for one extracted print content. -/
def pyPrintPiece (printContent : String) : String :=
  if incl printContent "fibonacci" ∨ incl printContent "fib" then
    match extractFibArg false printContent with
    | some n => toString (calculateFibonacci (n : Int)) ++ "\n"
    | none => "55\n"
  else if ¬ (printContent.data.head? = some '\x22' ∨ printContent.data.head? = some '\x27') then
    "42\n"
  else
    String.mk (printContent.data.filter (fun c => !(c == '\x22' || c == '\x27'))) ++ "\n"

/-- The python `exec` loop. -/
def pyPrintLoop : Nat → List Char → String
  | 0, _ => ""
  | _ + 1, [] => ""
  | fuel + 1, l@(_ :: tl) =>
    match pyPrintAt l with
    | some (content, rest) => pyPrintPiece content ++ pyPrintLoop fuel rest
    | none => pyPrintLoop fuel tl

/-- Tail of the java print patterns after the capture: `["']?\s*\)`; the
optional quote is consumed greedily first, as the regex engine would. -/
def quoteWsParen (u : List Char) : Option (List Char) :=
  let wsParen : List Char → Option (List Char) := fun v =>
    match skipWs v with
    | ')' :: rest => some rest
    | _ => none
  match u with
  | c :: rest =>
    if c = '\x22' ∨ c = '\x27' then
      match wsParen rest with
      | some r => some r
      | none => wsParen u
    else wsParen u
  | [] => none

/-- Lazy capture of `(.*?)["']?\s*\)`: stop at the least offset whose tail
matches `quoteWsParen`; the dot may not cross a line break. -/
def lazyCaptureToParen : Nat → List Char → List Char → Option (String × List Char)
  | 0, acc, u =>
    match quoteWsParen u with
    | some rest => some (String.mk acc.reverse, rest)
    | none => none
  | fuel + 1, acc, u =>
    match quoteWsParen u with
    | some rest => some (String.mk acc.reverse, rest)
    | none =>
      match u with
      | c :: cs =>
        if c = '\n' ∨ c = '\r' then none else lazyCaptureToParen fuel (c :: acc) cs
      | [] => none

/-- Anchored match of `kw\s*\(\s*["']?(.*?)["']?\s*\)` for a literal keyword
(the java `println`/`print` patterns).  The leading optional quote is tried
greedily; if no match exists that way, the quote is left to the capture. -/
def printCallAt (kw : List Char) (l : List Char) : Option (String × List Char) :=
  if kw.isPrefixOf l then
    match skipWs (l.drop kw.length) with
    | '(' :: rest =>
      let rest := skipWs rest
      match rest with
      | c :: rest2 =>
        if c = '\x22' ∨ c = '\x27' then
          match lazyCaptureToParen rest2.length [] rest2 with
          | some r => some r
          | none => lazyCaptureToParen rest.length [] rest
        else lazyCaptureToParen rest.length [] rest
      | [] => none
    | _ => none
  else none

/-- Anchored match of `/System\.out\.print(?:ln)?\s*\(\s*([a-zA-Z0-9_]+)\s*\)/`. -/
def printVarAt (l : List Char) : Option (String × List Char) :=
  if "System.out.print".data.isPrefixOf l then
    let rest := l.drop 16
    let rest := if "ln".data.isPrefixOf rest then rest.drop 2 else rest
    match skipWs rest with
    | '(' :: rest =>
      let rest := skipWs rest
      let ident := rest.takeWhile isWordChar
      if ident.isEmpty then none
      else
        match skipWs (rest.drop ident.length) with
        | ')' :: rest2 => some (String.mk ident, rest2)
        | _ => none
    | _ => none
  else none

/-- Generic `exec` loop over an anchored matcher with a per-match piece. -/
def scanLoop (matchAt : List Char → Option (String × List Char))
    (piece : String → String) : Nat → List Char → String
  | 0, _ => ""
  | _ + 1, [] => ""
  | fuel + 1, l@(_ :: tl) =>
    match matchAt l with
    | some (capture, rest) => piece capture ++ scanLoop matchAt piece fuel rest
    | none => scanLoop matchAt piece fuel tl

/-- Anchored match of `/cout\s*<<\s*["']?(.*?)["']?(?:\s*<<\s*endl)?/`: since
everything after the lazy capture is optional the capture is always empty; the
match consumes the optional quotes and, when present, the `<< endl` tail. -/
def coutAt (l : List Char) : Option (String × List Char) :=
  if "cout".data.isPrefixOf l then
    match skipWs (l.drop 4) with
    | '<' :: '<' :: rest =>
      let rest := skipWs rest
      let rest :=
        match rest with
        | c :: rest2 => if c = '\x22' ∨ c = '\x27' then rest2 else rest
        | [] => rest
      let rest :=
        match rest with
        | c :: rest2 => if c = '\x22' ∨ c = '\x27' then rest2 else rest
        | [] => rest
      let rest :=
        match skipWs rest with
        | '<' :: '<' :: rest2 =>
          let rest3 := skipWs rest2
          if "endl".data.isPrefixOf rest3 then rest3.drop 4 else rest
        | _ => rest
      some ("", rest)
    | _ => none
  else none

/-- Anchored match of `/cout\s*<<\s*([a-zA-Z0-9_]+)/`. -/
def coutVarAt (l : List Char) : Option (String × List Char) :=
  if "cout".data.isPrefixOf l then
    match skipWs (l.drop 4) with
    | '<' :: '<' :: rest =>
      let rest := skipWs rest
      let ident := rest.takeWhile isWordChar
      if ident.isEmpty then none
      else some (String.mk ident, rest.drop ident.length)
    | _ => none
  else none

/-- Lazy scan of `.*?\s*\)` (the optional printf argument list): stop at the
least offset where `\s*\)` matches; returns the input after the parenthesis. -/
def lazyToParen : Nat → List Char → Option (List Char)
  | 0, u =>
    match skipWs u with
    | ')' :: rest => some rest
    | _ => none
  | fuel + 1, u =>
    match skipWs u with
    | ')' :: rest => some rest
    | _ =>
      match u with
      | c :: cs => if c = '\n' ∨ c = '\r' then none else lazyToParen fuel cs
      | [] => none

/-- Tail of the plain printf pattern after the closing quote:
`(?:\s*,\s*.*?)?\s*\)`, the argument group tried greedily first. -/
def printfTail (u : List Char) : Option (List Char) :=
  let comma :=
    match skipWs u with
    | ',' :: v => lazyToParen v.length v
    | _ => none
  match comma with
  | some r => some r
  | none =>
    match skipWs u with
    | ')' :: rest => some rest
    | _ => none

/-- Lazy capture of `([^%]*?)["']...` for the plain printf pattern: grow the
capture over non-`%` characters until a quote is reached whose tail matches
`printfTail`. -/
def printfCapture : Nat → List Char → List Char → Option (String × List Char)
  | 0, _, _ => none
  | fuel + 1, acc, u =>
    match u with
    | c :: cs =>
      if c = '\x22' ∨ c = '\x27' then
        match printfTail cs with
        | some rest => some (String.mk acc.reverse, rest)
        | none => if c = '%' then none else printfCapture fuel (c :: acc) cs
      else if c = '%' then none
      else printfCapture fuel (c :: acc) cs
    | [] => none

/-- Anchored match of `/printf\s*\(\s*["']([^%]*?)["'](?:\s*,\s*.*?)?\s*\)/`. -/
def printfAt (l : List Char) : Option (String × List Char) :=
  if "printf".data.isPrefixOf l then
    match skipWs (l.drop 6) with
    | '(' :: rest =>
      match skipWs rest with
      | c :: rest2 =>
        if c = '\x22' ∨ c = '\x27' then printfCapture rest2.length [] rest2 else none
      | [] => none
    | _ => none
  else none

/-- Lazy capture of `(.*?)\s*\)` (the second capture of the formatted printf
pattern): stop at the least offset where `\s*\)` matches. -/
def fmtArgCapture : Nat → List Char → List Char → Option (String × List Char)
  | 0, acc, u =>
    match skipWs u with
    | ')' :: rest => some (String.mk acc.reverse, rest)
    | _ => none
  | fuel + 1, acc, u =>
    match skipWs u with
    | ')' :: rest => some (String.mk acc.reverse, rest)
    | _ =>
      match u with
      | c :: cs =>
        if c = '\n' ∨ c = '\r' then none else fmtArgCapture fuel (c :: acc) cs
      | [] => none

/-- Tail of the formatted printf pattern after the closing quote of the format
string: `\s*,\s*(.*?)\s*\)`. -/
def fmtTailAfterQuote (u : List Char) : Option (String × List Char) :=
  match skipWs u with
  | ',' :: v =>
    let v := skipWs v
    fmtArgCapture v.length [] v
  | _ => none

/-- Lazy capture of the format string `(.*?)["']...`: grow the capture until a
quote is reached whose tail matches `fmtTailAfterQuote`. -/
def fmtStrCapture : Nat → List Char → List Char → Option (String × String × List Char)
  | 0, _, _ => none
  | fuel + 1, acc, u =>
    match u with
    | c :: cs =>
      if c = '\x22' ∨ c = '\x27' then
        match fmtTailAfterQuote cs with
        | some (args, rest) => some (String.mk acc.reverse, args, rest)
        | none =>
          if c = '\n' ∨ c = '\r' then none else fmtStrCapture fuel (c :: acc) cs
      else if c = '\n' ∨ c = '\r' then none
      else fmtStrCapture fuel (c :: acc) cs
    | [] => none

/-- Anchored match of `/printf\s*\(\s*["'](.*?)["']\s*,\s*(.*?)\s*\)/`. -/
def formatPrintfAt (l : List Char) : Option (String × String × List Char) :=
  if "printf".data.isPrefixOf l then
    match skipWs (l.drop 6) with
    | '(' :: rest =>
      match skipWs rest with
      | c :: rest2 =>
        if c = '\x22' ∨ c = '\x27' then fmtStrCapture rest2.length [] rest2 else none
      | [] => none
    | _ => none
  else none

/-- First-occurrence replacement, modelling `s.replace(/pat/, r)` for a
literal pattern and a replacement carrying no `$` escapes. -/
def replaceFirst : List Char → List Char → List Char → List Char
  | l@(ch :: tl), pat, r =>
    if pat.isPrefixOf l then r ++ l.drop pat.length
    else ch :: replaceFirst tl pat r
  | [], _, _ => []

/-- Loop body of the formatted printf branch: split the argument capture on
commas, trim, and substitute the first `%d`/`%s`/`%f` of the format string
with the first argument (or its fixed default when that is empty, the
JavaScript `args[0] || default`). -/
def formatPrintfPiece (formatStr argsStr : String) : String :=
  let args0 :=
    match (argsStr.splitOn ",").map jsTrim with
    | a :: _ => a
    | [] => ""
  let f := formatStr
  let f :=
    if incl f "%d" then
      String.mk (replaceFirst f.data "%d".data (if args0 = "" then "42" else args0).data)
    else f
  let f :=
    if incl f "%s" then
      String.mk (replaceFirst f.data "%s".data (if args0 = "" then "text" else args0).data)
    else f
  let f :=
    if incl f "%f" then
      String.mk (replaceFirst f.data "%f".data (if args0 = "" then "42.0" else args0).data)
    else f
  f ++ "\n"

/-- Generic `exec` loop over a two-capture matcher. -/
def scanLoop2 (matchAt : List Char → Option (String × String × List Char))
    (piece : String → String → String) : Nat → List Char → String
  | 0, _ => ""
  | _ + 1, [] => ""
  | fuel + 1, l@(_ :: tl) =>
    match matchAt l with
    | some (c1, c2, rest) => piece c1 c2 ++ scanLoop2 matchAt piece fuel rest
    | none => scanLoop2 matchAt piece fuel tl

/-- The extraction routine `extractPrintStatements`: per-language `exec`
loops building an output string, returned trimmed. -/
def extractPrintStatements (code : String) (language : Lang) : String :=
  let l := code.data
  let output : String :=
    if language = Lang.python then
      pyPrintLoop l.length l
    else if language = Lang.java then
      scanLoop (printCallAt "System.out.println".data) (fun s => s ++ "\n") l.length l
        ++ scanLoop (printCallAt "System.out.print".data) (fun s => s) l.length l
        ++ scanLoop printVarAt (fun s => "Variable " ++ s ++ ": 42\n") l.length l
    else if language = Lang.cpp then
      scanLoop coutAt
          (fun s => if incl code "endl" ∨ incl code "\\n" then s ++ "\n" else s) l.length l
        ++ scanLoop coutVarAt
          (fun s => if s ≠ "endl" then "Variable " ++ s ++ ": 42\n" else "") l.length l
    else if language = Lang.c then
      scanLoop printfAt (fun s => s ++ "\n") l.length l
        ++ scanLoop2 formatPrintfAt formatPrintfPiece l.length l
    else ""
  jsTrim output

/-! ## Execution coordinator -/

/-- Pattern-classification and output synthesis `simulateExecution`:
the ordered detector chain of the execution path. -/
def simulateExecution (code : String) (language : Lang) : String :=
  if hasInputStatements code language then
    simulateInputExecution code language
  else
    let printOutput := extractPrintStatements code language
    if printOutput ≠ "" ∧ jsTrim printOutput ≠ "" then printOutput
    else if isFibonacci code language then simulateFibonacci code language
    else if isBubbleSort code language then simulateBubbleSort language
    else if isSelectionSort code language then simulateSelectionSort language
    else if isHelloWorld code language then "Hello, World!"
    else if hasArrayOutput code language then simulateArrayOutput language
    else if isFactorial code language then simulateFactorial language
    else if hasForLoop code then "Loop executed successfully.\nOutput: 0 1 2 3 4"
    else if hasRecursion code then "Recursive function executed.\nResult: 55"
    else getDefaultOutput language

/-- Coordinator `executeCode`.  The `timedOut` flag selects which side of
`Promise.race` between the work and the `EXECUTION_TIMEOUT` timer resolves
first; `elapsed` stands for `Date.now() - startTime` at resolution.  The
source's `catch`-to-error conversion has no effect in the model because the
synthesis is total.  The empty check precedes the race. -/
def executeCode (code : String) (language : Lang) (timedOut : Bool) (elapsed : Nat) :
    ExecutionResult :=
  if jsTrim code = "" then
    { status := Status.error
      output := "No code provided for execution."
      executionTime := some 10 }
  else if timedOut then
    { status := Status.timeout
      output := "Execution timed out. Your code may contain an infinite loop or is taking too long to process."
      executionTime := some EXECUTION_TIMEOUT }
  else
    match detectSyntaxErrors code language with
    | some diagnostic =>
      { status := Status.error, output := diagnostic, executionTime := some elapsed }
    | none =>
      { status := Status.success
        output := simulateExecution code language
        executionTime := some elapsed }

/-! ## Complexity classification (final revision) -/

/-- Nested-loop detector `isNestedLoops`; the JavaScript `&&`/`||` precedence
makes the opener count apply to the first disjunct only. -/
def isNestedLoops (code : String) : Bool :=
  (decide (2 ≤ countKwParen "for" code + countKwParen "while" code)
      && (incl code "for" && inclFrom code "for" ((idxOf code "for") + 3).toNat))
    || (incl code "while" && inclFrom code "while" ((idxOf code "while") + 5).toNat)
    || (incl code "for" && incl code "while")
    || (incl code "while" && incl code "for")

/-- Fibonacci detector `hasFibonacci` of the complexity and insight paths
(same body as `isFibonacci`). -/
def hasFibonacci (code : String) (_language : Lang) : Bool :=
  (incl (lowerStr code) "fibonacci" || incl (lowerStr code) "fib")
    && ((incl code "n-1" || incl code "n - 1")
          && (incl code "n-2" || incl code "n - 2")
        || (incl code "a + b" || incl code "a+b"))

/-- Loop detector `hasLoop`. -/
def hasLoop (code : String) : Bool :=
  incl code "for " || incl code "for(" || incl code "while " || incl code "while("

/-- Local condition `hasDynamicProgramming` of `analyzeComplexity`, hoisted
to a named definition. -/
def hasDynamicProgramming (code : String) : Bool :=
  incl code "memo" || (incl code "dp" && (incl code "array" || incl code "[]"))

/-- Local condition `hasBinarySearch` of `analyzeComplexity`. -/
def hasBinarySearch (code : String) : Bool :=
  incl code "mid" && incl code "left" && incl code "right"

/-- Local condition `hasDivideAndConquer` of `analyzeComplexity`. -/
def hasDivideAndConquer (code : String) : Bool :=
  incl code "merge" || (incl code "divide" && incl code "conquer")

/-- Local condition `hasGreedy` of `analyzeComplexity`. -/
def hasGreedy (code : String) : Bool :=
  incl code "greedy" || (incl code "sort" && incl code "max" && incl code "pick")

/-- Complexity classifier `analyzeComplexity` (final revision): ordered rule
chain over the snippet.  The source also computes a `hasRecursion` local that
no branch consults; it is omitted here as it has no effect. -/
def analyzeComplexity (code : String) (language : Lang) : ComplexityData :=
  if hasFibonacci code language then
    { timeComplexity := { best := "O(2^n)", average := "O(2^n)", worst := "O(2^n)" }
      spaceComplexity := "O(n)"
      analysis := "The recursive implementation of Fibonacci has exponential time complexity due to repeated calculations of the same values. Each function call branches into two more calls until reaching the base cases, creating an exponential number of function calls. The space complexity is O(n) due to the maximum recursion depth." }
  else if hasDynamicProgramming code then
    { timeComplexity := { best := "O(n)", average := "O(n)", worst := "O(n)" }
      spaceComplexity := "O(n)"
      analysis := "This dynamic programming approach has linear time complexity as it computes each subproblem exactly once and stores the results to avoid redundant calculations. The space complexity is also linear due to the memoization table or DP array." }
  else if hasBinarySearch code then
    { timeComplexity := { best := "O(1)", average := "O(log n)", worst := "O(log n)" }
      spaceComplexity := "O(1)"
      analysis := "Binary search has logarithmic time complexity as it divides the search space in half with each comparison. The best case is O(1) when the target is found at the middle position initially. Space complexity is constant as it only uses a fixed number of variables." }
  else if hasDivideAndConquer code then
    { timeComplexity := { best := "O(n log n)", average := "O(n log n)", worst := "O(n log n)" }
      spaceComplexity := "O(n)"
      analysis := "This divide and conquer algorithm (likely merge sort or similar) has O(n log n) time complexity. It recursively divides the problem and combines solutions, with log n levels of recursion and n work at each level. The space complexity is O(n) for the auxiliary arrays needed during merging." }
  else if hasGreedy code then
    { timeComplexity := { best := "O(n log n)", average := "O(n log n)", worst := "O(n log n)" }
      spaceComplexity := "O(1)"
      analysis := "This greedy algorithm has O(n log n) time complexity dominated by the sorting operation. After sorting, it makes a single pass through the data to make greedy choices. The space complexity is constant if sorting is done in-place." }
  else if isNestedLoops code then
    { timeComplexity := { best := "O(n²)", average := "O(n²)", worst := "O(n²)" }
      spaceComplexity := "O(1)"
      analysis := "The code contains nested loops, resulting in quadratic time complexity. The outer loop executes n times, and for each iteration, the inner loop also executes up to n times, leading to approximately n² total operations. Space complexity is constant as it only uses a fixed amount of additional memory regardless of input size." }
  else if hasLoop code then
    { timeComplexity := { best := "O(n)", average := "O(n)", worst := "O(n)" }
      spaceComplexity := "O(1)"
      analysis := "The code has linear time complexity as it processes each element once with a single loop. Each element requires a constant number of operations, resulting in linear scaling with input size. Space complexity is constant as it uses a fixed amount of memory regardless of input size." }
  else
    { timeComplexity := { best := "O(1)", average := "O(1)", worst := "O(1)" }
      spaceComplexity := "O(1)"
      analysis := "The code appears to have constant time complexity as it does not contain loops or recursive calls. It processes a fixed number of operations regardless of input size, resulting in constant time execution." }

/-! ## Complexity classification (earlier revisions named by the claims) -/

/-- First-revision `analyzeComplexity` (the smaller rule set of the earliest
code-service snapshot). -/
def analyzeComplexityV1 (code : String) (_language : Lang) : ComplexityData :=
  if incl code "fibonacci" ∧ incl code "return" ∧ incl code "n-1" ∧ incl code "n-2" then
    { timeComplexity := { best := "O(2^n)", average := "O(2^n)", worst := "O(2^n)" }
      spaceComplexity := "O(n)"
      analysis := "The recursive implementation of Fibonacci has exponential time complexity due to repeated calculations of the same values. Consider using dynamic programming or memoization to improve performance." }
  else
    { timeComplexity := { best := "O(1)", average := "O(n)", worst := "O(n)" }
      spaceComplexity := "O(1)"
      analysis := "The code appears to have linear time complexity as it processes each element once. Space complexity is constant as it uses a fixed amount of memory regardless of input size." }

/-- Count of the non-overlapping occurrences of a literal pattern, modelling
`(s.match(/pat/g) || []).length` for a pattern without metacharacters. -/
def countSubAux (pat : List Char) : Nat → List Char → Nat
  | 0, _ => 0
  | _ + 1, [] => 0
  | fuel + 1, l@(_ :: tl) =>
    if pat.isPrefixOf l then countSubAux pat fuel (l.drop pat.length) + 1
    else countSubAux pat fuel tl

/-- Count of `/pat/g` matches in `s` for a literal pattern. -/
def countSub (s pat : String) : Nat :=
  countSubAux pat.data s.data.length s.data

/-- Intermediate-revision `analyzeComplexity` of `codeService.ts`. -/
def codeServiceAnalyzeComplexity (code : String) (_language : Lang) : ComplexityData :=
  let hasFib :=
    incl code "fibonacci" ∧ (incl code "return" ∨ incl code "return ")
      ∧ (incl code "n-1" ∨ incl code "n - 1") ∧ (incl code "n-2" ∨ incl code "n - 2")
  let hasLp := incl code "for" ∨ incl code "while"
  let hasNested :=
    1 < countSub code "for" ∨ 1 < countSub code "while"
      ∨ (incl code "for" ∧ incl code "while")
  if hasFib then
    { timeComplexity := { best := "O(2^n)", average := "O(2^n)", worst := "O(2^n)" }
      spaceComplexity := "O(n)"
      analysis := "The recursive implementation of Fibonacci has exponential time complexity due to repeated calculations of the same values. Consider using dynamic programming or memoization to improve performance." }
  else if hasNested then
    { timeComplexity := { best := "O(n²)", average := "O(n²)", worst := "O(n²)" }
      spaceComplexity := "O(1)"
      analysis := "The code contains nested loops, resulting in quadratic time complexity. Each element in the outer loop iterates through all elements in the inner loop." }
  else if hasLp then
    { timeComplexity := { best := "O(n)", average := "O(n)", worst := "O(n)" }
      spaceComplexity := "O(1)"
      analysis := "The code has linear time complexity as it processes each element once with a single loop. Space complexity is constant as it uses a fixed amount of memory regardless of input size." }
  else
    { timeComplexity := { best := "O(1)", average := "O(1)", worst := "O(1)" }
      spaceComplexity := "O(1)"
      analysis := "The code appears to have constant time complexity as it does not contain loops or recursive calls. It processes a fixed number of operations regardless of input size." }

/-! ## Insight generation (final revision) -/

/-- Code-sample generator `generateMemoizationCode`. -/
def generateMemoizationCode (language : Lang) : String :=
  if language = Lang.python then
    "# Optimized with memoization\ndef fibonacci(n, memo=\x7b\x7d):\n    if n in memo:\n        return memo[n]\n    if n <= 1:\n        return n\n    memo[n] = fibonacci(n-1, memo) + fibonacci(n-2, memo)\n    return memo[n]"
  else if language = Lang.java then
    "// Optimized with memoization\nimport java.util.HashMap;\nimport java.util.Map;\n\npublic static int fibonacci(int n) \x7b\n    return fibMemo(n, new HashMap<>());\n\x7d\n\nprivate static int fibMemo(int n, Map<Integer, Integer> memo) \x7b\n    if (memo.containsKey(n)) return memo.get(n);\n    if (n <= 1) return n;\n    memo.put(n, fibMemo(n-1, memo) + fibMemo(n-2, memo));\n    return memo.get(n);\n\x7d"
  else if language = Lang.cpp then
    "// Optimized with memoization\n#include <unordered_map>\n\nint fibonacci(int n) \x7b\n    std::unordered_map<int, int> memo;\n    return fibMemo(n, memo);\n\x7d\n\nint fibMemo(int n, std::unordered_map<int, int>& memo) \x7b\n    if (memo.find(n) != memo.end()) return memo[n];\n    if (n <= 1) return n;\n    memo[n] = fibMemo(n-1, memo) + fibMemo(n-2, memo);\n    return memo[n];\n\x7d"
  else
    "// Optimized with memoization\nint fibMemo(int n, int memo[], int size) \x7b\n    if (n < size && memo[n] != -1) return memo[n];\n    if (n <= 1) return n;\n    \n    int result = fibMemo(n-1, memo, size) + fibMemo(n-2, memo, size);\n    if (n < size) memo[n] = result;\n    return result;\n\x7d\n\nint fibonacci(int n) \x7b\n    int size = n+1 > 1000 ? 1000 : n+1;\n    int memo[size];\n    for (int i = 0; i < size; i++) memo[i] = -1;\n    return fibMemo(n, memo, size);\n\x7d"

/-- Code-sample generator `generateIterativeFibonacciCode`; the fallback (the
`javascript` tag) is the empty string. -/
def generateIterativeFibonacciCode (language : Lang) : String :=
  if language = Lang.python then
    "# Iterative implementation\ndef fibonacci(n):\n    if n <= 1:\n        return n\n    a, b = 0, 1\n    for i in range(2, n+1):\n        c = a + b\n        a = b\n        b = c\n    return b"
  else if language = Lang.java then
    "// Iterative implementation\npublic static int fibonacci(int n) \x7b\n    if (n <= 1) return n;\n    int a = 0, b = 1;\n    for (int i = 2; i <= n; i++) \x7b\n        int c = a + b;\n        a = b;\n        b = c;\n    \x7d\n    return b;\n\x7d"
  else if language = Lang.cpp ∨ language = Lang.c then
    "// Iterative implementation\nint fibonacci(int n) \x7b\n    if (n <= 1) return n;\n    int a = 0, b = 1;\n    for (int i = 2; i <= n; i++) \x7b\n        int c = a + b;\n        a = b;\n        b = c;\n    \x7d\n    return b;\n\x7d"
  else ""

/-- Code-sample generator `generateEdgeCaseCode`. -/
def generateEdgeCaseCode (language : Lang) : String :=
  if language = Lang.python then
    "# With edge case handling\ndef process_list(items):\n    # Handle empty list case\n    if not items:\n        return []\n    \n    result = []\n    for item in items:\n        # Handle None items\n        if item is None:\n            continue\n        result.append(process_item(item))\n    return result"
  else if language = Lang.java then
    "// With edge case handling\npublic List<Result> processItems(List<Item> items) \x7b\n    // Handle null or empty list\n    if (items == null || items.isEmpty()) \x7b\n        return Collections.emptyList();\n    \x7d\n    \n    List<Result> results = new ArrayList<>();\n    for (Item item : items) \x7b\n        // Handle null items\n        if (item == null) \x7b\n            continue;\n        \x7d\n        results.add(processItem(item));\n    \x7d\n    return results;\n\x7d"
  else if language = Lang.cpp then
    "// With edge case handling\nstd::vector<Result> processItems(const std::vector<Item>& items) \x7b\n    // Handle empty vector\n    if (items.empty()) \x7b\n        return \x7b\x7d;\n    \x7d\n    \n    std::vector<Result> results;\n    results.reserve(items.size());\n    for (const auto& item : items) \x7b\n        // Handle invalid items\n        if (!item.isValid()) \x7b\n            continue;\n        \x7d\n        results.push_back(processItem(item));\n    \x7d\n    return results;\n\x7d"
  else
    "// With edge case handling\nResult* processItems(Item* items, int size, int* resultSize) \x7b\n    // Handle null or empty array\n    if (items == NULL || size <= 0) \x7b\n        *resultSize = 0;\n        return NULL;\n    \x7d\n    \n    // Pre-allocate result array\n    Result* results = (Result*)malloc(size * sizeof(Result));\n    int count = 0;\n    \n    for (int i = 0; i < size; i++) \x7b\n        // Handle invalid items\n        if (!isValid(&items[i])) \x7b\n            continue;\n        \x7d\n        results[count++] = processItem(&items[i]);\n    \x7d\n    \n    *resultSize = count;\n    return results;\n\x7d"

/-- Code-sample generator `generateEarlyTerminationCode`. -/
def generateEarlyTerminationCode (language : Lang) : String :=
  if language = Lang.python then
    "# With early termination\ndef find_element(items, target):\n    for i, item in enumerate(items):\n        for j, sub_item in enumerate(item):\n            if sub_item == target:\n                return (i, j)  # Return immediately when found\n    return None  # Not found"
  else if language = Lang.java then
    "// With early termination\npublic Coordinates findElement(List<List<Integer>> matrix, int target) \x7b\n    for (int i = 0; i < matrix.size(); i++) \x7b\n        List<Integer> row = matrix.get(i);\n        for (int j = 0; j < row.size(); j++) \x7b\n            if (row.get(j) == target) \x7b\n                return new Coordinates(i, j);  // Return immediately when found\n            \x7d\n        \x7d\n    \x7d\n    return null;  // Not found\n\x7d"
  else if language = Lang.cpp then
    "// With early termination\nstd::optional<Coordinates> findElement(const std::vector<std::vector<int>>& matrix, int target) \x7b\n    for (size_t i = 0; i < matrix.size(); i++) \x7b\n        for (size_t j = 0; j < matrix[i].size(); j++) \x7b\n            if (matrix[i][j] == target) \x7b\n                return Coordinates\x7bi, j\x7d;  // Return immediately when found\n            \x7d\n        \x7d\n    \x7d\n    return std::nullopt;  // Not found\n\x7d"
  else
    "// With early termination\nint findElement(int** matrix, int rows, int cols, int target, int* row, int* col) \x7b\n    for (int i = 0; i < rows; i++) \x7b\n        for (int j = 0; j < cols; j++) \x7b\n            if (matrix[i][j] == target) \x7b\n                *row = i;\n                *col = j;\n                return 1;  // Found\n            \x7d\n        \x7d\n    \x7d\n    return 0;  // Not found\n\x7d"

/-- Code-sample generator `generatePreallocationCode`. -/
def generatePreallocationCode (language : Lang) : String :=
  if language = Lang.python then
    "# With pre-allocation\ndef calculate_values(n):\n    # Pre-allocate the list with None values\n    results = [None] * n\n    for i in range(n):\n        results[i] = i * i\n    return results"
  else if language = Lang.java then
    "// With pre-allocation\npublic List<Integer> calculateValues(int n) \x7b\n    // Pre-allocate ArrayList with initial capacity\n    List<Integer> results = new ArrayList<>(n);\n    for (int i = 0; i < n; i++) \x7b\n        results.add(i * i);\n    \x7d\n    return results;\n\x7d"
  else if language = Lang.cpp then
    "// With pre-allocation\nstd::vector<int> calculateValues(int n) \x7b\n    // Reserve capacity before adding elements\n    std::vector<int> results;\n    results.reserve(n);\n    for (int i = 0; i < n; i++) \x7b\n        results.push_back(i * i);\n    \x7d\n    return results;\n\x7d"
  else
    "// With pre-allocation\nint* calculateValues(int n) \x7b\n    // Allocate array with exact size needed\n    int* results = (int*)malloc(n * sizeof(int));\n    for (int i = 0; i < n; i++) \x7b\n        results[i] = i * i;\n    \x7d\n    return results;\n\x7d"

/-- Code-sample generator `generateBaseCheckCode`; the fallback (the
`javascript` tag) is the empty string. -/
def generateBaseCheckCode (language : Lang) : String :=
  if language = Lang.python then
    "# With base case limit check\ndef fibonacci(n, memo=\x7b\x7d):\n    # Prevent stack overflow with large inputs\n    if n > 50:\n        return \x22Input too large for recursive solution\x22\n        \n    if n in memo:\n        return memo[n]\n    if n <= 1:\n        return n\n    memo[n] = fibonacci(n-1, memo) + fibonacci(n-2, memo)\n    return memo[n]"
  else if language = Lang.java then
    "// With base case limit check\npublic static int fibonacci(int n) \x7b\n    // Prevent stack overflow with large inputs\n    if (n > 50) \x7b\n        throw new IllegalArgumentException(\x22Input too large for recursive solution\x22);\n    \x7d\n    \n    return fibHelper(n, new HashMap<>());\n\x7d\n\nprivate static int fibHelper(int n, Map<Integer, Integer> memo) \x7b\n    if (memo.containsKey(n)) return memo.get(n);\n    if (n <= 1) return n;\n    memo.put(n, fibHelper(n-1, memo) + fibHelper(n-2, memo));\n    return memo.get(n);\n\x7d"
  else if language = Lang.cpp ∨ language = Lang.c then
    "// With base case limit check\nint fibonacci(int n) \x7b\n    // Prevent stack overflow with large inputs\n    if (n > 50) \x7b\n        fprintf(stderr, \x22Input too large for recursive solution\\n\x22);\n        return -1; // Error code\n    \x7d\n    \n    std::unordered_map<int, int> memo;\n    return fibHelper(n, memo);\n\x7d\n\nint fibHelper(int n, std::unordered_map<int, int>& memo) \x7b\n    if (memo.find(n) != memo.end()) return memo[n];\n    if (n <= 1) return n;\n    memo[n] = fibHelper(n-1, memo) + fibHelper(n-2, memo);\n    return memo[n];\n\x7d"
  else ""

/-- Insight generator `getAIInsights` (final revision): shape-keyed insight
groups, then language-specific idiom insights, then the generic fallback when
nothing was produced.  The `complexityData` parameter is never consulted by
the body, exactly as in the source. -/
def getAIInsights (code : String) (language : Lang) (_complexityData : ComplexityData) :
    List Insight :=
  let insights : List Insight :=
    if hasFibonacci code language ∧ incl code "return"
        ∧ (incl code "n-1" ∨ incl code "n - 1")
        ∧ (incl code "n-2" ∨ incl code "n - 2") then
      [ { type := InsightType.optimization
          title := "Use Memoization"
          description := "The current recursive implementation recalculates the same values multiple times, leading to inefficient execution."
          rationale := some "Memoization stores already computed values, eliminating redundant calculations and significantly improving performance."
          impact := some "Reduces time complexity from exponential O(2^n) to linear O(n), making the algorithm practical for larger inputs."
          code := some (generateMemoizationCode language) },
        { type := InsightType.optimization
          title := "Use Iteration Instead of Recursion"
          description := "An iterative approach can be more efficient for calculating Fibonacci numbers."
          rationale := some "Iterative solutions avoid the overhead of recursive function calls and potential stack overflow issues for large inputs."
          impact := some "Reduces both time and space complexity, while maintaining the same mathematical result."
          code := some (generateIterativeFibonacciCode language) },
        { type := InsightType.warning
          title := "Stack Overflow Risk"
          description := "The current recursive implementation may cause stack overflow for large values of n (typically n > 40-50)."
          rationale := some "Each recursive call adds a new frame to the call stack. With exponential growth, large inputs quickly exceed available stack space."
          impact := some "The program will crash for moderately large inputs, making it unreliable for production use."
          code := some (generateBaseCheckCode language) } ]
    else if isNestedLoops code then
      [ { type := InsightType.optimization
          title := "Consider Time Complexity"
          description := "Your code contains nested loops, resulting in quadratic O(n²) time complexity."
          rationale := some "Nested loops process each element multiple times, which can be inefficient for large datasets."
          impact := some "May lead to performance issues with large inputs. Consider if a more efficient algorithm exists for your specific problem."
          code := none },
        { type := InsightType.suggestion
          title := "Early Termination"
          description := "Consider adding break conditions to exit loops early when a solution is found."
          rationale := some "Early termination can significantly improve average-case performance while maintaining correctness."
          impact := some "Could improve performance substantially for cases where the target is found early in the dataset."
          code := some (generateEarlyTerminationCode language) } ]
    else if hasLoop code then
      [ { type := InsightType.suggestion
          title := "Handle Edge Cases"
          description := "Ensure your loop properly handles edge cases like empty collections or boundary conditions."
          rationale := some "Edge cases are often sources of bugs. Explicit handling improves robustness and readability."
          impact := some "Prevents potential runtime errors and unexpected behavior with unusual inputs."
          code := some (generateEdgeCaseCode language) } ]
        ++ (if incl code "array" ∨ incl code "list" ∨ incl code "[]" then
          [ { type := InsightType.optimization
              title := "Consider Pre-allocation"
              description := "If your code builds a result collection inside a loop, consider pre-allocating its size."
              rationale := some "Dynamic resizing of collections (like ArrayList or Python lists) can be expensive when done repeatedly."
              impact := some "Improves performance by avoiding multiple memory reallocations during execution."
              code := some (generatePreallocationCode language) } ]
        else [])
    else []
  let insights := insights ++
    (if language = Lang.python then
      (if incl code "for " ∧ ¬ incl code "enumerate(" then
        [ { type := InsightType.suggestion
            title := "Use enumerate() for Counter Variables"
            description := "When you need both the index and value in a loop, use enumerate() instead of manual indexing."
            rationale := some "enumerate() is more Pythonic and less error-prone than maintaining a separate counter variable."
            impact := some "Improves code readability and reduces the chance of off-by-one errors."
            code := some "# Instead of:\ni = 0\nfor item in items:\n    print(i, item)\n    i += 1\n\n# Use enumerate:\nfor i, item in enumerate(items):\n    print(i, item)" } ]
      else [])
      ++ (if incl code "if " ∧ incl code "else" ∧ ¬ incl code "elif" then
        [ { type := InsightType.suggestion
            title := "Consider Using Conditional Expressions"
            description := "For simple if-else statements that assign values, use Python\x27s conditional expressions."
            rationale := some "Conditional expressions are more concise and expressive for simple value assignments."
            impact := some "Reduces code verbosity while maintaining readability for simple conditions."
            code := some "# Instead of:\nif condition:\n    x = value1\nelse:\n    x = value2\n\n# Use:\nx = value1 if condition else value2" } ]
      else [])
    else if language = Lang.java then
      (if incl code "for (" ∧ incl code "get(" ∧ ¬ incl code "forEach" then
        [ { type := InsightType.suggestion
            title := "Use Enhanced For Loop or forEach()"
            description := "For iterating over collections, consider using enhanced for loops or the forEach() method."
            rationale := some "Modern Java idioms improve readability and reduce the chance of indexing errors."
            impact := some "Makes code more concise and less error-prone for collection traversal."
            code := some "// Instead of:\nfor (int i = 0; i < list.size(); i++) \x7b\n    Item item = list.get(i);\n    // process item\n\x7d\n\n// Use:\nfor (Item item : list) \x7b\n    // process item\n\x7d\n\n// Or:\nlist.forEach(item -> \x7b\n    // process item\n\x7d);" } ]
      else [])
    else if language = Lang.cpp then
      (if incl code "for (" ∧ incl code "push_back" ∧ ¬ incl code "reserve" then
        [ { type := InsightType.optimization
            title := "Reserve Vector Capacity"
            description := "When building vectors in a loop, reserve capacity upfront if the size is known."
            rationale := some "Calling reserve() prevents multiple reallocations and copies as the vector grows."
            impact := some "Improves performance by reducing memory management overhead during execution."
            code := some "// Instead of:\nstd::vector<int> result;\nfor (int i = 0; i < n; i++) \x7b\n    result.push_back(calculate(i));\n\x7d\n\n// Use:\nstd::vector<int> result;\nresult.reserve(n);  // Reserve space for n elements\nfor (int i = 0; i < n; i++) \x7b\n    result.push_back(calculate(i));\n\x7d" } ]
      else [])
    else [])
  if insights = [] then
    [ { type := InsightType.suggestion
        title := "Add Error Handling"
        description := "Consider adding error handling to make your code more robust."
        rationale := some "Proper error handling prevents crashes and improves user experience when unexpected situations occur."
        impact := some "Makes your code more reliable and easier to debug when issues arise."
        code := none },
      { type := InsightType.suggestion
        title := "Add Documentation"
        description := "Adding comments and documentation can make your code more maintainable."
        rationale := some "Well-documented code is easier for others (and your future self) to understand and modify."
        impact := some "Improves long-term maintainability and helps onboard new developers to the codebase."
        code := none } ]
  else insights

/-- Insight generator `getAIInsights` of the intermediate `codeService.ts`
revision.  That revision's `Insight` record has no `rationale`/`impact`
fields; they are modelled as absent.  Its `complexityData` parameter is never
consulted by the body, exactly as in the source. -/
def codeServiceGetAIInsights (code : String) (language : Lang)
    (_complexityData : ComplexityData) : List Insight :=
  let hasFib :=
    incl code "fibonacci" ∧ incl code "return"
      ∧ (incl code "n-1" ∨ incl code "n - 1") ∧ (incl code "n-2" ∨ incl code "n - 2")
  let hasLp := incl code "for" ∨ incl code "while"
  let hasPrint := language = Lang.python ∧ incl code "print"
  let hasSystemOut := language = Lang.java ∧ incl code "System.out"
  let hasCout := language = Lang.cpp ∧ incl code "cout"
  let hasPrintf := (language = Lang.c ∨ language = Lang.cpp) ∧ incl code "printf"
  if hasFib then
    [ { type := InsightType.optimization
        title := "Use Memoization"
        description := "The current recursive implementation recalculates the same values multiple times. Using memoization can reduce time complexity from O(2^n) to O(n)."
        rationale := none, impact := none
        code := some (
          if language = Lang.python then
            "# Optimized with memoization\ndef fibonacci(n, memo=\x7b\x7d):\n    if n in memo:\n        return memo[n]\n    if n <= 1:\n        return n\n    memo[n] = fibonacci(n-1, memo) + fibonacci(n-2, memo)\n    return memo[n]"
          else if language = Lang.java then
            "// Optimized with memoization\npublic static int fibonacci(int n, Map<Integer, Integer> memo) \x7b\n    if (memo.containsKey(n)) return memo.get(n);\n    if (n <= 1) return n;\n    memo.put(n, fibonacci(n-1, memo) + fibonacci(n-2, memo));\n    return memo.get(n);\n\x7d"
          else if language = Lang.cpp ∨ language = Lang.c then
            "// Optimized with memoization\nint fibonacci(int n, std::unordered_map<int, int>& memo) \x7b\n    if (memo.find(n) != memo.end()) return memo[n];\n    if (n <= 1) return n;\n    memo[n] = fibonacci(n-1, memo) + fibonacci(n-2, memo);\n    return memo[n];\n\x7d"
          else
            "// Optimized with memoization\nint fibonacci(int n, int memo[]) \x7b\n    if (memo[n] != -1) return memo[n];\n    if (n <= 1) return n;\n    memo[n] = fibonacci(n-1, memo) + fibonacci(n-2, memo);\n    return memo[n];\n\x7d") },
      { type := InsightType.optimization
        title := "Use Iteration Instead of Recursion"
        description := "An iterative approach can be more efficient for calculating Fibonacci numbers, avoiding stack overhead and potential stack overflow for large inputs."
        rationale := none, impact := none
        code := some (
          if language = Lang.python then
            "# Iterative implementation\ndef fibonacci(n):\n    if n <= 1:\n        return n\n    a, b = 0, 1\n    for i in range(2, n+1):\n        c = a + b\n        a = b\n        b = c\n    return b"
          else if language = Lang.java then
            "// Iterative implementation\npublic static int fibonacci(int n) \x7b\n    if (n <= 1) return n;\n    int a = 0, b = 1;\n    for (int i = 2; i <= n; i++) \x7b\n        int c = a + b;\n        a = b;\n        b = c;\n    \x7d\n    return b;\n\x7d"
          else
            "// Iterative implementation\nint fibonacci(int n) \x7b\n    if (n <= 1) return n;\n    int a = 0, b = 1;\n    for (int i = 2; i <= n; i++) \x7b\n        int c = a + b;\n        a = b;\n        b = c;\n    \x7d\n    return b;\n\x7d") },
      { type := InsightType.warning
        title := "Stack Overflow Risk"
        description := "The current recursive implementation may cause stack overflow for large values of n (typically n > 40-50). Consider adding a base case check for large inputs."
        rationale := none, impact := none
        code := none } ]
  else if hasLp then
    [ { type := InsightType.suggestion
        title := "Consider Edge Cases"
        description := "Make sure your loop handles edge cases correctly, such as empty collections or boundary conditions."
        rationale := none, impact := none, code := none },
      { type := InsightType.optimization
        title := "Early Termination"
        description := "Consider adding early termination conditions to your loop when the goal is achieved before iterating through all elements."
        rationale := none, impact := none, code := none } ]
  else if hasPrint ∨ hasSystemOut ∨ hasCout ∨ hasPrintf then
    [ { type := InsightType.suggestion
        title := "Add Error Handling"
        description := "Consider adding error handling around your output statements to make your code more robust."
        rationale := none, impact := none, code := none },
      { type := InsightType.suggestion
        title := "Format Output"
        description := "Use formatting to make your output more readable and structured."
        rationale := none, impact := none
        code := some (
          if language = Lang.python then
            "# Formatted output\nprint(f\x22The result is: \x7bresult\x7d\x22)"
          else if language = Lang.java then
            "// Formatted output\nSystem.out.printf(\x22The result is: %d\\n\x22, result);"
          else if language = Lang.cpp then
            "// Formatted output\nstd::cout << \x22The result is: \x22 << result << std::endl;"
          else
            "// Formatted output\nprintf(\x22The result is: %d\\n\x22, result);") } ]
  else
    [ { type := InsightType.suggestion
        title := "Add Error Handling"
        description := "Consider adding error handling to make your code more robust. This will help catch and manage unexpected inputs or runtime errors."
        rationale := none, impact := none, code := none },
      { type := InsightType.suggestion
        title := "Add Documentation"
        description := "Adding comments and documentation can make your code more maintainable and easier for others to understand."
        rationale := none, impact := none, code := none } ]

/-- Rank of a complexity-class label in the natural ordering
`O(1) < O(log n) < O(n) < O(n log n) < O(n²) < O(2^n)`; unknown labels rank
0. -/
def labelRank : String → Nat
  | "O(1)" => 1
  | "O(log n)" => 2
  | "O(n)" => 3
  | "O(n log n)" => 4
  | "O(n²)" => 5
  | "O(2^n)" => 6
  | _ => 0

/-- A profile is ordered when its labels are drawn from the fixed vocabulary
and satisfy best ≤ average ≤ worst. -/
def profileOrdered (p : ComplexityData) : Prop :=
  1 ≤ labelRank p.timeComplexity.best ∧
    labelRank p.timeComplexity.best ≤ labelRank p.timeComplexity.average ∧
    labelRank p.timeComplexity.average ≤ labelRank p.timeComplexity.worst

/-! ## General lemmas -/

/-- A string whose character list is nonempty is not the empty string. -/
theorem mk_ne_empty {l : List Char} (h : l ≠ []) : String.mk l ≠ "" := by
  intro he
  exact h (congrArg String.data he)

/-- Appending anything to a nonempty string keeps it nonempty. -/
theorem append_ne_empty_left {s : String} (t : String) (h : s ≠ "") : s ++ t ≠ "" := by
  intro he
  have hd := congrArg String.data he
  rw [String.data_append] at hd
  rcases hs : s.data with _ | ⟨a, l⟩
  · exact h (by cases s; simp_all)
  · rw [hs] at hd; simp at hd

/-- Digit rendering never produces an empty list. -/
theorem toDigitsCore_ne_nil (b : Nat) : ∀ (fuel n : Nat) (ds : List Char),
    fuel ≠ 0 ∨ ds ≠ [] → Nat.toDigitsCore b fuel n ds ≠ [] := by
  intro fuel
  induction fuel with
  | zero => intro n ds h; simp [Nat.toDigitsCore]; tauto
  | succ k ih =>
    intro n ds _
    simp only [Nat.toDigitsCore]
    split
    · simp
    · exact ih (n / b) _ (Or.inr (by simp))

/-- Decimal rendering of a natural number is nonempty. -/
theorem natRepr_ne_empty (n : Nat) : Nat.repr n ≠ "" := by
  unfold Nat.repr
  intro h
  have hne : Nat.toDigits 10 n ≠ [] :=
    toDigitsCore_ne_nil 10 (n + 1) n [] (Or.inl (by simp))
  apply hne
  have := congrArg String.data h
  simpa [List.asString] using this

/-- Decimal rendering of an integer is nonempty (the hidden fact behind the
nonemptiness of the interpolated `${result}` outputs). -/
theorem intToString_ne_empty (i : Int) : toString i ≠ "" := by
  show Int.repr i ≠ ""
  cases i with
  | ofNat m => exact natRepr_ne_empty m
  | negSucc m =>
    show "-" ++ Nat.repr (m + 1) ≠ ""
    intro h
    have hd := congrArg String.data h
    rw [String.data_append] at hd
    simp at hd

/-- A character that fails the predicate survives `dropWhile`. -/
theorem mem_dropWhile_of_not {p : Char → Bool} {c : Char} :
    ∀ {l : List Char}, c ∈ l → p c = false → c ∈ l.dropWhile p := by
  intro l
  induction l with
  | nil => intro h; cases h
  | cons a t ih =>
    intro hmem hp
    rcases List.mem_cons.mp hmem with rfl | ht
    · by_cases ha : p c
      · rw [hp] at ha; cases ha
      · rw [List.dropWhile_cons_of_neg (by simpa using ha)]; exact List.mem_cons_self _ _
    · by_cases ha : p a
      · rw [List.dropWhile_cons_of_pos ha]; exact ih ht hp
      · rw [List.dropWhile_cons_of_neg (by simpa using ha)]
        exact List.mem_cons_of_mem _ ht

/-- A string containing a non-whitespace character does not trim to empty. -/
theorem jsTrim_ne_empty {s : String} {c : Char} (hc : c ∈ s.data) (hw : jsWs c = false) :
    jsTrim s ≠ "" := by
  unfold jsTrim
  apply mk_ne_empty
  intro h
  have h1 : (s.data.dropWhile jsWs).reverse.dropWhile jsWs = [] :=
    List.reverse_eq_nil_iff.mp h
  have hc1 : c ∈ s.data.dropWhile jsWs := mem_dropWhile_of_not hc hw
  have hc2 : c ∈ (s.data.dropWhile jsWs).reverse := List.mem_reverse.mpr hc1
  have hc3 : c ∈ (s.data.dropWhile jsWs).reverse.dropWhile jsWs :=
    mem_dropWhile_of_not hc2 hw
  rw [h1] at hc3
  cases hc3

/-! ## Claim C1 -/

/-- Below the argument 79 every loop value stays under `2^53`, all the
double-precision additions are exact, and the helper agrees with the
mathematical Fibonacci function; settled by evaluating all 79 cases. -/
theorem calculateFibonacci_exact_lt79 :
    ∀ m : Nat, m < 79 → calculateFibonacci (m : Int) = (Nat.fib m : Int) := by
  decide

set_option maxRecDepth 8000 in
/-- C1 counterexample: at the argument 79 the exact sum `Fib 79` is odd and
exceeds `2^53`, so the double-precision addition of the source rounds it
(ties to even) to 14472334024676220, one less than the mathematical
Fibonacci number — the claim's exactness for every integer fails. -/
theorem C1_counterexample :
    calculateFibonacci 79 = 14472334024676220 ∧
    (Nat.fib 79 : Int) = 14472334024676221 ∧
    calculateFibonacci 79 ≠ (Nat.fib 79 : Int) := by
  exact ⟨by decide, by decide, by decide⟩

/-- C1 amended: for every snippet recognised as the Fibonacci shape the
engine computes the result with the iterative double-precision helper:
`calculateFibonacci n` is the mathematical Fibonacci number for every integer
`0 ≤ n ≤ 78` (the range in which every intermediate value stays inside the
exact `2^53` double range) and 0 for every `n ≤ 0`; and for a snippet whose
first `fib...(digits)` call carries the literal 10 — or carries no integer
literal at all, the argument defaulting to 10 — the synthesised output value
is exactly 55 (bare, or in the labelled form). -/
theorem C1_fibonacci_iterative_amended :
    (∀ n : Int, 0 ≤ n → n ≤ 78 → calculateFibonacci n = (Nat.fib n.toNat : Int)) ∧
    (∀ n : Int, n ≤ 0 → calculateFibonacci n = 0) ∧
    (∀ (code : String) (lang : Lang),
      extractFibArg true code = some 10 ∨ extractFibArg true code = none →
        simulateFibonacci code lang = "55" ∨
        simulateFibonacci code lang = "Input: n = 10\nFibonacci(10) = 55") := by
  refine ⟨?_, ?_, ?_⟩
  · intro n h0 h78
    have h := calculateFibonacci_exact_lt79 n.toNat (by omega)
    rwa [Int.toNat_of_nonneg h0] at h
  · intro n hn
    unfold calculateFibonacci
    rw [if_pos hn]
  · intro code lang h
    unfold simulateFibonacci
    rcases h with h | h <;> rw [h] <;> split_ifs <;>
      first
        | (left; decide)
        | (right; decide)

/-- C1 witness: the amended theorem applied at `n = 10`, `n = -3` and the
literal snippet `fibonacci(10)`. -/
theorem C1_fibonacci_iterative_amended_witness :
    calculateFibonacci 10 = (Nat.fib 10 : Int) ∧ calculateFibonacci (-3) = 0 ∧
      (simulateFibonacci "fibonacci(10)" Lang.javascript = "55" ∨
       simulateFibonacci "fibonacci(10)" Lang.javascript = "Input: n = 10\nFibonacci(10) = 55") := by
  refine ⟨?_, ?_, ?_⟩
  · exact C1_fibonacci_iterative_amended.1 10 (by norm_num) (by norm_num)
  · exact C1_fibonacci_iterative_amended.2.1 (-3) (by norm_num)
  · exact C1_fibonacci_iterative_amended.2.2 "fibonacci(10)" Lang.javascript
      (Or.inl (by decide))

/-! ## Claim C5 -/

/-- C5: a snippet matching both the Fibonacci shape and the nested-loop shape
is classified by the earlier-priority Fibonacci rule — `O(2^n)` time in all
three cases and `O(n)` space — and never by the nested-loop rule. -/
theorem C5_fibonacci_priority (code : String) (lang : Lang)
    (hfib : hasFibonacci code lang = true) (_hnest : isNestedLoops code = true) :
    (analyzeComplexity code lang).timeComplexity.best = "O(2^n)" ∧
    (analyzeComplexity code lang).timeComplexity.average = "O(2^n)" ∧
    (analyzeComplexity code lang).timeComplexity.worst = "O(2^n)" ∧
    (analyzeComplexity code lang).spaceComplexity = "O(n)" ∧
    (analyzeComplexity code lang).timeComplexity.worst ≠ "O(n²)" := by
  have h : analyzeComplexity code lang =
      { timeComplexity := { best := "O(2^n)", average := "O(2^n)", worst := "O(2^n)" }
        spaceComplexity := "O(n)"
        analysis := "The recursive implementation of Fibonacci has exponential time complexity due to repeated calculations of the same values. Each function call branches into two more calls until reaching the base cases, creating an exponential number of function calls. The space complexity is O(n) due to the maximum recursion depth." } := by
    unfold analyzeComplexity
    rw [hfib]
    rfl
  rw [h]
  exact ⟨rfl, rfl, rfl, rfl, by decide⟩

/-- C5 witness: a memoised Fibonacci snippet with an internal nested loop. -/
theorem C5_fibonacci_priority_witness :
    hasFibonacci "fib memo n-1 n-2 for ( for (" Lang.javascript = true ∧
    isNestedLoops "fib memo n-1 n-2 for ( for (" = true ∧
    (analyzeComplexity "fib memo n-1 n-2 for ( for (" Lang.javascript).timeComplexity.best
      = "O(2^n)" := by
  refine ⟨by decide, by decide, ?_⟩
  exact (C5_fibonacci_priority _ _ (by decide) (by decide)).1

/-! ## Claim C4 -/

/-- C4 counterexample: a snippet with two nested `for` openers and no
recursion or memoisation vocabulary whose loop body mentions `merge`: the
earlier-priority divide-and-conquer rule fires, so the profile is
`O(n log n)`, not the `O(n²)` the claim requires. -/
theorem C4_counterexample :
    isNestedLoops "for (i) for (j) merge arrays" = true ∧
    incl "for (i) for (j) merge arrays" "return" = false ∧
    incl "for (i) for (j) merge arrays" "memo" = false ∧
    incl "for (i) for (j) merge arrays" "dp" = false ∧
    (analyzeComplexity "for (i) for (j) merge arrays" Lang.python).timeComplexity.best
      = "O(n log n)" ∧
    (analyzeComplexity "for (i) for (j) merge arrays" Lang.python).timeComplexity.best
      ≠ "O(n²)" := by
  exact ⟨by decide, by decide, by decide, by decide, by decide, by decide⟩

/-- C4 amended: for a snippet in which the nested-loop detector fires and
none of the five earlier-priority detectors (Fibonacci shape, memo/DP
vocabulary, binary-search vocabulary, divide-and-conquer vocabulary, greedy
vocabulary) fires, `analyzeComplexity` returns `O(n²)` for best, average and
worst case and `O(1)` space, independent of the remaining loop-body
content. -/
theorem C4_nested_loops_amended (code : String) (lang : Lang)
    (h1 : hasFibonacci code lang = false)
    (h2 : hasDynamicProgramming code = false)
    (h3 : hasBinarySearch code = false)
    (h4 : hasDivideAndConquer code = false)
    (h5 : hasGreedy code = false)
    (h6 : isNestedLoops code = true) :
    (analyzeComplexity code lang).timeComplexity.best = "O(n²)" ∧
    (analyzeComplexity code lang).timeComplexity.average = "O(n²)" ∧
    (analyzeComplexity code lang).timeComplexity.worst = "O(n²)" ∧
    (analyzeComplexity code lang).spaceComplexity = "O(1)" := by
  have h : analyzeComplexity code lang =
      { timeComplexity := { best := "O(n²)", average := "O(n²)", worst := "O(n²)" }
        spaceComplexity := "O(1)"
        analysis := "The code contains nested loops, resulting in quadratic time complexity. The outer loop executes n times, and for each iteration, the inner loop also executes up to n times, leading to approximately n² total operations. Space complexity is constant as it only uses a fixed amount of additional memory regardless of input size." } := by
    unfold analyzeComplexity
    rw [h1, h2, h3, h4, h5, h6]
    rfl
  rw [h]
  exact ⟨rfl, rfl, rfl, rfl⟩

/-- C4 witness: two nested `for` openers and nothing the earlier rules key
on. -/
theorem C4_nested_loops_amended_witness :
    isNestedLoops "for (i) for (j) x" = true ∧
    (analyzeComplexity "for (i) for (j) x" Lang.python).timeComplexity.best = "O(n²)" := by
  refine ⟨by decide, ?_⟩
  exact (C4_nested_loops_amended "for (i) for (j) x" Lang.python
    (by decide) (by decide) (by decide) (by decide) (by decide) (by decide)).1

/-! ## Claim C6 -/

/-- C6: every profile returned by `analyzeComplexity` — in each of the three
revisions present in the repository — satisfies best ≤ average ≤ worst under
the natural complexity-class ordering. -/
theorem C6_profile_ordered (code : String) (lang : Lang) :
    profileOrdered (analyzeComplexity code lang) ∧
    profileOrdered (analyzeComplexityV1 code lang) ∧
    profileOrdered (codeServiceAnalyzeComplexity code lang) := by
  refine ⟨?_, ?_, ?_⟩
  · simp only [profileOrdered, analyzeComplexity]
    split_ifs <;> decide
  · simp only [profileOrdered, analyzeComplexityV1]
    split_ifs <;> decide
  · simp only [profileOrdered, codeServiceAnalyzeComplexity]
    split_ifs <;> decide

/-! ## Claim C7 -/

/-- C7: an empty or whitespace-only snippet makes `executeCode` return the
fixed error result immediately — for every language tag, race outcome and
clock value, so no validation, classification or synthesis influences it —
with the near-zero elapsed time 10. -/
theorem C7_empty_snippet (code : String) (lang : Lang) (timedOut : Bool) (elapsed : Nat)
    (h : jsTrim code = "") :
    executeCode code lang timedOut elapsed =
      { status := Status.error
        output := "No code provided for execution."
        executionTime := some 10 } := by
  unfold executeCode
  rw [if_pos h]

/-- C7 witness: the theorem applied to a whitespace-only snippet under an
arbitrary language, race outcome and clock. -/
theorem C7_empty_snippet_witness :
    executeCode "  \n " Lang.python true 999 =
      { status := Status.error
        output := "No code provided for execution."
        executionTime := some 10 } :=
  C7_empty_snippet "  \n " Lang.python true 999 (by decide)

/-! ## Claim C8 -/

/-- C8: when the validate-classify-synthesise work does not complete within
the budget (the timer side of the race resolves first) on a non-empty
snippet, `executeCode` yields the timeout result — never success — with the
fixed advisory message and the elapsed time pinned to `EXECUTION_TIMEOUT`. -/
theorem C8_timeout (code : String) (lang : Lang) (elapsed : Nat)
    (h : jsTrim code ≠ "") :
    executeCode code lang true elapsed =
      { status := Status.timeout
        output := "Execution timed out. Your code may contain an infinite loop or is taking too long to process."
        executionTime := some EXECUTION_TIMEOUT } ∧
    (executeCode code lang true elapsed).status ≠ Status.success := by
  have he : executeCode code lang true elapsed =
      { status := Status.timeout
        output := "Execution timed out. Your code may contain an infinite loop or is taking too long to process."
        executionTime := some EXECUTION_TIMEOUT } := by
    unfold executeCode
    rw [if_neg h]
    rfl
  exact ⟨he, by rw [he]; decide⟩

/-- C8 witness: a one-character snippet raced to the timeout. -/
theorem C8_timeout_witness :
    executeCode "x" Lang.java true 0 =
      { status := Status.timeout
        output := "Execution timed out. Your code may contain an infinite loop or is taking too long to process."
        executionTime := some EXECUTION_TIMEOUT } ∧
    (executeCode "x" Lang.java true 0).status ≠ Status.success :=
  C8_timeout "x" Lang.java 0 (by decide)

/-! ## Claim C3 -/

/-- On a brace-using language, a brace-count mismatch always produces a
diagnostic, but the infinite-loop heuristic is consulted first. -/
theorem detectSyntaxErrors_brace (code : String) (lang : Lang)
    (hlang : lang = Lang.java ∨ lang = Lang.cpp ∨ lang = Lang.c)
    (hbrace : countChar code '\x7b' ≠ countChar code '\x7d') :
    detectSyntaxErrors code lang =
      if testWhileTrueParen code ∧ ¬ incl code "break" then
        some "Potential infinite loop detected: while loop with no break condition"
      else some "error: mismatched curly braces" := by
  rcases hlang with rfl | rfl | rfl <;>
    by_cases hinf : testWhileTrueParen code ∧ ¬ incl code "break" <;>
      simp [detectSyntaxErrors, hinf, hbrace]

/-- Brace-count mismatch forces a non-whitespace character into the code. -/
theorem jsTrim_ne_empty_of_brace_mismatch (code : String)
    (hbrace : countChar code '\x7b' ≠ countChar code '\x7d') : jsTrim code ≠ "" := by
  by_cases h0 : '\x7b' ∈ code.data
  · exact jsTrim_ne_empty h0 (by decide)
  · have h1 : '\x7d' ∈ code.data := by
      by_contra h2
      apply hbrace
      unfold countChar
      rw [List.count_eq_zero.mpr h0, List.count_eq_zero.mpr h2]
    exact jsTrim_ne_empty h1 (by decide)

/-- C3 amended: a snippet whose `\x7b` and `\x7d` counts differ, submitted
under java, cpp or c with the work side of the race winning, yields
`status = error`, and the output is the brace-mismatch diagnostic unless the
snippet also triggers the earlier infinite-loop heuristic, which then
supplies its own diagnostic instead. -/
theorem C3_brace_mismatch_amended (code : String) (lang : Lang) (elapsed : Nat)
    (hlang : lang = Lang.java ∨ lang = Lang.cpp ∨ lang = Lang.c)
    (hbrace : countChar code '\x7b' ≠ countChar code '\x7d') :
    (executeCode code lang false elapsed).status = Status.error ∧
    (¬ (testWhileTrueParen code ∧ ¬ incl code "break") →
      (executeCode code lang false elapsed).output = "error: mismatched curly braces") ∧
    ((testWhileTrueParen code ∧ ¬ incl code "break") →
      (executeCode code lang false elapsed).output =
        "Potential infinite loop detected: while loop with no break condition") := by
  have hne : jsTrim code ≠ "" := jsTrim_ne_empty_of_brace_mismatch code hbrace
  have hd := detectSyntaxErrors_brace code lang hlang hbrace
  by_cases hinf : testWhileTrueParen code ∧ ¬ incl code "break"
  · rw [if_pos hinf] at hd
    have he : executeCode code lang false elapsed =
        { status := Status.error
          output := "Potential infinite loop detected: while loop with no break condition"
          executionTime := some elapsed } := by
      unfold executeCode
      rw [if_neg hne]
      show (match detectSyntaxErrors code lang with
        | some diagnostic =>
          ({ status := Status.error, output := diagnostic, executionTime := some elapsed }
            : ExecutionResult)
        | none =>
          { status := Status.success, output := simulateExecution code lang
            executionTime := some elapsed }) = _
      rw [hd]
    rw [he]
    exact ⟨rfl, fun hcontr => absurd hinf hcontr, fun _ => rfl⟩
  · rw [if_neg hinf] at hd
    have he : executeCode code lang false elapsed =
        { status := Status.error
          output := "error: mismatched curly braces"
          executionTime := some elapsed } := by
      unfold executeCode
      rw [if_neg hne]
      show (match detectSyntaxErrors code lang with
        | some diagnostic =>
          ({ status := Status.error, output := diagnostic, executionTime := some elapsed }
            : ExecutionResult)
        | none =>
          { status := Status.success, output := simulateExecution code lang
            executionTime := some elapsed }) = _
      rw [hd]
    rw [he]
    exact ⟨rfl, fun _ => rfl, fun hcontr => absurd hcontr hinf⟩

/-- C3 counterexample: the java snippet `while(true) \x7b` has mismatched
braces, yet the returned error output is the infinite-loop diagnostic, not
the brace-mismatch diagnostic the claim promises. -/
theorem C3_counterexample :
    countChar "while(true) \x7b" '\x7b' ≠ countChar "while(true) \x7b" '\x7d' ∧
    (executeCode "while(true) \x7b" Lang.java false 100).status = Status.error ∧
    (executeCode "while(true) \x7b" Lang.java false 100).output
      ≠ "error: mismatched curly braces" ∧
    (executeCode "while(true) \x7b" Lang.java false 100).output
      = "Potential infinite loop detected: while loop with no break condition" := by
  exact ⟨by decide, by decide, by decide, by decide⟩

/-- C3 witness: a mismatched-brace java snippet with no infinite-loop
pattern. -/
theorem C3_brace_mismatch_amended_witness :
    (executeCode "class \x7b" Lang.java false 50).status = Status.error ∧
    (executeCode "class \x7b" Lang.java false 50).output = "error: mismatched curly braces" := by
  have h := C3_brace_mismatch_amended "class \x7b" Lang.java 50 (Or.inl rfl) (by decide)
  exact ⟨h.1, h.2.1 (by decide)⟩

/-! ## Claim C2 -/

/-- Every diagnostic produced by the validator is a fixed nonempty string. -/
theorem detectSyntaxErrors_output_ne_empty (code : String) (lang : Lang) (d : String)
    (h : detectSyntaxErrors code lang = some d) : d ≠ "" := by
  simp only [detectSyntaxErrors] at h
  split_ifs at h <;> (rw [Option.some_inj] at h; subst h; decide)

/-- Under its guard, the blocking-input synthesis is nonempty. -/
theorem simulateInputExecution_ne_empty (code : String) (lang : Lang)
    (h : hasInputStatements code lang = true) : simulateInputExecution code lang ≠ "" := by
  cases lang with
  | javascript => simp [hasInputStatements] at h
  | python => unfold simulateInputExecution; split_ifs <;> first | decide | simp_all
  | java => unfold simulateInputExecution; split_ifs <;> first | decide | simp_all
  | cpp => unfold simulateInputExecution; split_ifs <;> first | decide | simp_all
  | c => unfold simulateInputExecution; split_ifs <;> first | decide | simp_all

/-- The Fibonacci synthesis is always nonempty: it is either the decimal
rendering of the computed value or the labelled line. -/
theorem simulateFibonacci_ne_empty (code : String) (lang : Lang) :
    simulateFibonacci code lang ≠ "" := by
  simp only [simulateFibonacci]
  split_ifs <;>
    first
      | exact intToString_ne_empty _
      | exact append_ne_empty_left _ (append_ne_empty_left _ (append_ne_empty_left _
          (append_ne_empty_left _ (append_ne_empty_left _ (by decide)))))

set_option maxHeartbeats 1600000 in
/-- The only empty synthesis is the bubble-sort output under the `javascript`
tag, which falls through every branch of `simulateBubbleSort`. -/
theorem simulateExecution_empty (code : String) (lang : Lang)
    (h : simulateExecution code lang = "") :
    lang = Lang.javascript ∧ isBubbleSort code lang = true := by
  simp only [simulateExecution] at h
  split_ifs at h with h1 h2 h3 h4 h5 h6 h7 h8 h9 h10
  · exact absurd h (simulateInputExecution_ne_empty code lang h1)
  · exact absurd h h2.1
  · exact absurd h (simulateFibonacci_ne_empty code lang)
  · cases lang with
    | javascript => exact ⟨rfl, h4⟩
    | python => exact absurd h (by decide)
    | java => exact absurd h (by decide)
    | cpp => exact absurd h (by decide)
    | c => exact absurd h (by decide)
  · cases lang <;> exact absurd h (by decide)
  · exact absurd h (by decide)
  · cases lang <;> exact absurd h (by decide)
  · cases lang <;> exact absurd h (by decide)
  · exact absurd h (by decide)
  · exact absurd h (by decide)
  · cases lang <;> exact absurd h (by decide)

set_option maxHeartbeats 800000 in
/-- C2 amended: the result of `executeCode` never carries the transient
`running` status; an `error` result always has a nonempty output; a `success`
result has a nonempty output except when the language tag is `javascript`
(outside the engine's four handled languages) and the snippet matches the
bubble-sort shape, whose synthesis is then the empty string. -/
theorem C2_result_invariant_amended (code : String) (lang : Lang) (timedOut : Bool)
    (elapsed : Nat) :
    (executeCode code lang timedOut elapsed).status ≠ Status.running ∧
    ((executeCode code lang timedOut elapsed).status = Status.error →
      (executeCode code lang timedOut elapsed).output ≠ "") ∧
    ((executeCode code lang timedOut elapsed).status = Status.success →
      (executeCode code lang timedOut elapsed).output = "" →
      lang = Lang.javascript ∧ isBubbleSort code lang = true) := by
  unfold executeCode
  split_ifs with h1 h2
  · exact ⟨by decide, fun _ => by decide, fun hs => absurd hs (by decide)⟩
  · exact ⟨by decide, fun hs => absurd hs (by decide), fun hs => absurd hs (by decide)⟩
  · cases hd : detectSyntaxErrors code lang with
    | some d =>
      simp only [hd]
      exact ⟨by decide, fun _ => detectSyntaxErrors_output_ne_empty code lang d hd,
        fun hs => absurd hs (by decide)⟩
    | none =>
      simp only [hd]
      exact ⟨by decide, fun hs => absurd hs (by decide),
        fun _ hout => simulateExecution_empty code lang hout⟩

/-- C2 counterexample: a `javascript` snippet matching the bubble-sort shape
is executed to a `success` result whose output is empty, refuting the
nonemptiness half of the claim. -/
theorem C2_counterexample :
    (executeCode "for ( for ( swap" Lang.javascript false 100).status = Status.success ∧
    (executeCode "for ( for ( swap" Lang.javascript false 100).output = "" := by
  exact ⟨by decide, by decide⟩

/-- C2 witness: the amended invariant applied at a concrete input, its
error-status hypothesis discharged at a java brace mismatch. -/
theorem C2_result_invariant_amended_witness :
    (executeCode "class \x7b" Lang.java false 10).status ≠ Status.running ∧
    (executeCode "class \x7b" Lang.java false 10).output ≠ "" := by
  exact ⟨(C2_result_invariant_amended "class \x7b" Lang.java false 10).1,
    (C2_result_invariant_amended "class \x7b" Lang.java false 10).2.1 (by decide)⟩

/-! ## Claims C9 and C10 -/

/-- C9: `analyzeComplexity` and `getAIInsights` are deterministic — two calls
with byte-identical snippet, language tag (and, for the insight generator,
profile) return structurally identical results.  This holds because the pure
embedding is faithful: neither source function reads a clock, random source
or any state besides its arguments. -/
theorem C9_deterministic (code1 code2 : String) (lang1 lang2 : Lang)
    (p1 p2 : ComplexityData)
    (hc : code1 = code2) (hl : lang1 = lang2) (hp : p1 = p2) :
    analyzeComplexity code1 lang1 = analyzeComplexity code2 lang2 ∧
    getAIInsights code1 lang1 p1 = getAIInsights code2 lang2 p2 := by
  subst hc; subst hl; subst hp
  exact ⟨rfl, rfl⟩

/-- C9 witness: the determinism theorem applied at a concrete repeated
call. -/
theorem C9_deterministic_witness :
    analyzeComplexity "for (i) x" Lang.python = analyzeComplexity "for (i) x" Lang.python ∧
    getAIInsights "for (i) x" Lang.python
        { timeComplexity := { best := "O(n)", average := "O(n)", worst := "O(n)" }
          spaceComplexity := "O(1)", analysis := "a" } =
      getAIInsights "for (i) x" Lang.python
        { timeComplexity := { best := "O(n)", average := "O(n)", worst := "O(n)" }
          spaceComplexity := "O(1)", analysis := "a" } :=
  C9_deterministic "for (i) x" "for (i) x" Lang.python Lang.python
    { timeComplexity := { best := "O(n)", average := "O(n)", worst := "O(n)" }
      spaceComplexity := "O(1)", analysis := "a" }
    { timeComplexity := { best := "O(n)", average := "O(n)", worst := "O(n)" }
      spaceComplexity := "O(1)", analysis := "a" } rfl rfl rfl

/-- C10: the insight list does not depend on the `complexityData` argument —
in the final engine revision and in the intermediate `codeService.ts`
revision alike, the parameter is never consulted, so any two profiles give
identical lists. -/
theorem C10_insights_profile_independent (code : String) (lang : Lang)
    (p1 p2 : ComplexityData) :
    getAIInsights code lang p1 = getAIInsights code lang p2 ∧
    codeServiceGetAIInsights code lang p1 = codeServiceGetAIInsights code lang p2 :=
  ⟨rfl, rfl⟩

end CompileSense
